import Mathlib

/-!
Verification of the connection-config parser, inventory synthesizer and
lifecycle runner of `pytest_ansible_vagrant`.

The Python sources are shallowly embedded: each Lean definition transcribes
one Python function (named after it).  Python `str` is Lean `String` (lines
are processed as `List Char`), Python `int` is `Int`, Python dicts keyed by
strings are insertion-ordered association lists, and raising is modelled with
`Except`.  ASCII text is assumed throughout (the Python regexes run without
`re.ASCII`, but provider output is ASCII).
-/

namespace PAV

/-- Python whitespace class `\s` over ASCII: space, tab, LF, CR, VT, FF. -/
def pyIsSpace (c : Char) : Bool :=
  c = ' ' || c = '\t' || c = '\n' || c = '\r' || c = '\x0b' || c = '\x0c'

/-- `str.strip()` on a list of characters: drop `pyIsSpace` on both ends. -/
def pyStripChars (cs : List Char) : List Char :=
  ((cs.dropWhile pyIsSpace).reverse.dropWhile pyIsSpace).reverse

/-- `str.splitlines()` restricted to the line breaks `\n`, `\r\n`, `\r`:
no trailing empty line, empty string gives no lines. -/
def pySplitlines (s : String) : List String :=
  (go s.toList []).map (fun cs => String.mk cs.reverse)
where
  go : List Char → List Char → List (List Char)
    | [], acc => if acc.isEmpty then [] else [acc]
    | '\r' :: '\n' :: rest, acc => acc :: go rest []
    | '\r' :: rest, acc => acc :: go rest []
    | '\n' :: rest, acc => acc :: go rest []
    | c :: rest, acc => go rest (c :: acc)

/-- Case-insensitive keyword match (keyword given in lowercase): returns the
remainder of the line after the keyword, or `none`. -/
def matchKeyword : List Char → List Char → Option (List Char)
  | [], cs => some cs
  | _ :: _, [] => none
  | k :: ks, c :: cs => if c.toLower = k then matchKeyword ks cs else none

/-- `_PAT_HOST = ^\s*Host\s+(\S+)\s*$` (IGNORECASE), applied with `re.match`:
returns the captured alias token.  The remainder after `Host` must begin with
whitespace and strip down to a single non-empty whitespace-free token. -/
def lineHost (line : List Char) : Option (List Char) :=
  match matchKeyword ['h', 'o', 's', 't'] (line.dropWhile pyIsSpace) with
  | none => none
  | some rest =>
    match rest with
    | [] => none
    | c :: _ =>
      if pyIsSpace c then
        let tok := pyStripChars rest
        if tok.isEmpty || tok.any pyIsSpace then none else some tok
      else none

/-- The four keys recognised by `_PAT_KV`. -/
inductive SSHKey
  | hostname
  | user
  | port
  | identityfile
deriving DecidableEq, Repr

/-- The lowercase spelling of a key, as produced by `m.group(1).lower()`. -/
def SSHKey.chars : SSHKey → List Char
  | .hostname => ['h', 'o', 's', 't', 'n', 'a', 'm', 'e']
  | .user => ['u', 's', 'e', 'r']
  | .port => ['p', 'o', 'r', 't']
  | .identityfile => ['i', 'd', 'e', 'n', 't', 'i', 't', 'y', 'f', 'i', 'l', 'e']

/-- The canonical display casing used in error messages
(`casing` dict in `_parse_ssh_config_block`). -/
def SSHKey.casing : SSHKey → String
  | .hostname => "HostName"
  | .user => "User"
  | .port => "Port"
  | .identityfile => "IdentityFile"

/-- `_PAT_KV = ^\s*(HostName|User|Port|IdentityFile)\s+(.+?)\s*$` (IGNORECASE)
with `re.match`, followed by `val = m.group(2).strip()`.  Because group 2 is
non-greedy and `.` matches any remaining character, the match succeeds exactly
when the text after the keyword starts with a whitespace character and has at
least one further character, and the stripped capture equals the stripped
remainder.  Returns the lowercased key and the stripped value. -/
def lineKV (line : List Char) : Option (SSHKey × List Char) :=
  let cs := line.dropWhile pyIsSpace
  (tryKey .hostname cs).orElse fun _ =>
  (tryKey .user cs).orElse fun _ =>
  (tryKey .port cs).orElse fun _ =>
  tryKey .identityfile cs
where
  tryKey (k : SSHKey) (cs : List Char) : Option (SSHKey × List Char) :=
    match matchKeyword k.chars cs with
    | none => none
    | some rest =>
      match rest with
      | [] => none
      | c :: rest' =>
        if pyIsSpace c ∧ ¬ rest'.isEmpty then some (k, pyStripChars rest)
        else none

/-- The value post-processing in the scan loop: symmetric matching single or
double quotes are stripped (`val[0] == val[-1] and val[0] in "\x22'"`). -/
def stripQuotes (val : List Char) : List Char :=
  match val with
  | c :: rest =>
    if 2 ≤ val.length ∧ val.getLast? = some c ∧ (c = '"' ∨ c = '\'') then
      rest.dropLast
    else val
  | [] => val

/-- The per-block field accumulator (`fields: dict[str, str]`); only the four
recognised lowercase keys are ever written. -/
structure Fields where
  hostname : Option String := none
  user : Option String := none
  port : Option String := none
  identityfile : Option String := none
deriving DecidableEq, Repr

def Fields.get (f : Fields) : SSHKey → Option String
  | .hostname => f.hostname
  | .user => f.user
  | .port => f.port
  | .identityfile => f.identityfile

def Fields.set (f : Fields) : SSHKey → String → Fields
  | .hostname, v => { f with hostname := some v }
  | .user, v => { f with user := some v }
  | .port, v => { f with port := some v }
  | .identityfile, v => { f with identityfile := some v }

/-- Truthiness of the `fields` dict (`and fields`). -/
def Fields.nonempty (f : Fields) : Bool :=
  f.hostname.isSome || f.user.isSome || f.port.isSome || f.identityfile.isSome

/-- A digit string as accepted by Python `int()` after the sign: digits with
single underscores allowed between digits. -/
def pyDigits : List Char → Option Nat :=
  fun cs =>
    match cs with
    | [] => none
    | c :: rest => if c.isDigit then go (c.toNat - '0'.toNat) rest else none
where
  go (acc : Nat) : List Char → Option Nat
    | [] => some acc
    | '_' :: c :: rest =>
      if c.isDigit then go (acc * 10 + (c.toNat - '0'.toNat)) rest else none
    | '_' :: [] => none
    | c :: rest =>
      if c.isDigit then go (acc * 10 + (c.toNat - '0'.toNat)) rest else none

/-- Python `int(s)` on a string: optional surrounding whitespace, optional
sign, digits (with underscore separators); `none` models `ValueError`. -/
def pyInt (s : String) : Option Int :=
  match pyStripChars s.toList with
  | '+' :: rest => (pyDigits rest).map Int.ofNat
  | '-' :: rest => (pyDigits rest).map (fun n => -(n : Int))
  | rest => (pyDigits rest).map Int.ofNat

/-- Python `repr` of a string as interpolated by `!r` in the error message;
quoting with `'` (escape sequences are not modelled). -/
def pyRepr (s : String) : String := "'" ++ s ++ "'"

/-- The validated connection record (`SSHConfig` TypedDict). -/
structure SSHConfig where
  hostname : String
  port : Int
  user : String
  identityfile : String
deriving DecidableEq, Repr

/-- The required keys in the order `("hostname", "user", "port",
"identityfile")` checked by `_parse_ssh_config_block`. -/
def requiredKeys : List SSHKey := [.hostname, .user, .port, .identityfile]

/-- The `missing` list of `_parse_ssh_config_block`: canonical names of the
required keys absent from `fields`, in check order. -/
def missingOf (f : Fields) : List String :=
  (requiredKeys.filter (fun k => (f.get k).isNone)).map SSHKey.casing

/-- `_parse_ssh_config_block(fields)` (runner.py): all four keys must be
present, the port must parse as an integer; otherwise a `ValueError` whose
message is transcribed verbatim. -/
def parseSshConfigBlock (f : Fields) : Except String SSHConfig :=
  if missingOf f ≠ [] then
    .error ("ssh-config missing: " ++ String.intercalate ", " (missingOf f))
  else
    match f.hostname, f.user, f.port, f.identityfile with
    | some hn, some us, some po, some idf =>
      match pyInt po with
      | none => .error ("ssh-config invalid Port: " ++ pyRepr po)
      | some p => .ok { hostname := hn, port := p, user := us, identityfile := idf }
    | _, _, _, _ =>
      .error ("ssh-config missing: " ++ String.intercalate ", " (missingOf f))

/-- Insertion-ordered dict update (`hosts[current_host] = ...`): replace the
value at an existing key in place, otherwise append. -/
def dictInsert (k : String) (v : α) : List (String × α) → List (String × α)
  | [] => [(k, v)]
  | p :: ps => if p.1 = k then (k, v) :: ps else p :: dictInsert k v ps

/-- Key membership in a dict. -/
def dictHas (k : String) : List (String × α) → Bool
  | [] => false
  | p :: ps => p.1 = k || dictHas k ps

/-- First-match lookup in a dict. -/
def dictGet (k : String) : List (String × α) → Option α
  | [] => none
  | p :: ps => if p.1 = k then some p.2 else dictGet k ps

/-- The flush at a block boundary:
`if current_host is not None and fields: try: hosts[current_host] = ...`
(a `ValueError` drops the block). -/
def flushBlock (hosts : List (String × SSHConfig)) :
    Option (List Char × Fields) → List (String × SSHConfig)
  | none => hosts
  | some (a, f) =>
    if f.nonempty then
      match parseSshConfigBlock f with
      | .ok c => dictInsert (String.mk a) c hosts
      | .error _ => hosts
    else hosts

/-- The line loop of `_from_ssh_config_multi`, with the loop state
`(hosts, current_host, fields)` threaded explicitly; the final flush of the
trailing block is performed when the lines run out. -/
def scanSsh (hosts : List (String × SSHConfig))
    (cur : Option (List Char × Fields)) : List String → List (String × SSHConfig)
  | [] => flushBlock hosts cur
  | l :: ls =>
    match lineHost l.toList with
    | some a => scanSsh (flushBlock hosts cur) (some (a, {})) ls
    | none =>
      match cur with
      | none => scanSsh hosts none ls
      | some (a, f) =>
        match lineKV l.toList with
        | none => scanSsh hosts (some (a, f)) ls
        | some (k, v) =>
          scanSsh hosts (some (a, f.set k (String.mk (stripQuotes v)))) ls

/-- `_from_ssh_config_multi(text)` (runner.py). -/
def fromSshConfigMulti (text : String) : List (String × SSHConfig) :=
  scanSsh [] none (pySplitlines text)

/-- `_from_ssh_config(text)` (runner.py): first entry of the multi parse
(`next(iter(hosts.values()))`), or the no-valid-blocks error. -/
def fromSshConfig (text : String) : Except String SSHConfig :=
  match fromSshConfigMulti text with
  | [] => .error "ssh-config contains no valid host blocks"
  | (_, c) :: _ => .ok c

/-! ### Block decomposition

`blocksAux` computes the list of host blocks — `(alias, final fields)` pairs —
that the scan of `_from_ssh_config_multi` flushes (including blocks whose
fields stay empty, which the flush then ignores).  It is the specification
of the phrase "host block" used by the claims, and is proved below to agree
with the transcribed scan. -/

def blocksAux (cur : Option (List Char × Fields)) :
    List String → List (List Char × Fields)
  | [] => match cur with | none => [] | some b => [b]
  | l :: ls =>
    match lineHost l.toList with
    | some a =>
      match cur with
      | none => blocksAux (some (a, {})) ls
      | some b => b :: blocksAux (some (a, {})) ls
    | none =>
      match cur with
      | none => blocksAux none ls
      | some (a, f) =>
        match lineKV l.toList with
        | none => blocksAux (some (a, f)) ls
        | some (k, v) =>
          blocksAux (some (a, f.set k (String.mk (stripQuotes v)))) ls

/-- The host blocks of a connection-config text. -/
def blocksOf (text : String) : List (List Char × Fields) :=
  blocksAux none (pySplitlines text)

/-- The blocks of a text that validate, paired with their descriptors. -/
def validBlocks (text : String) : List (String × SSHConfig) :=
  (blocksOf text).filterMap fun b =>
    match parseSshConfigBlock b.2 with
    | .ok c => some (String.mk b.1, c)
    | .error _ => none

/-! ### The strict single-host parser of vagrant.py

`_from_ssh_config` in vagrant.py scans only the first host block (it stops at
the second host declaration) and then validates the accumulated fields with
code identical to `_parse_ssh_config_block`. -/

/-- The line loop of vagrant.py `_from_ssh_config`: `in_block` flag, first
block's fields accumulated, `break` on the second host declaration. -/
def vagrantScanFields (inBlock : Bool) (f : Fields) : List String → Fields
  | [] => f
  | l :: ls =>
    match lineHost l.toList with
    | some _ => if inBlock then f else vagrantScanFields true f ls
    | none =>
      if inBlock then
        match lineKV l.toList with
        | none => vagrantScanFields true f ls
        | some (k, v) =>
          vagrantScanFields true (f.set k (String.mk (stripQuotes v))) ls
      else vagrantScanFields false f ls

/-- `_from_ssh_config(text)` (vagrant.py): scan the first block, then run the
validation code (textually identical to `_parse_ssh_config_block`). -/
def vagrantFromSshConfig (text : String) : Except String SSHConfig :=
  parseSshConfigBlock (vagrantScanFields false {} (pySplitlines text))

/-- `os.path.isabs` for POSIX paths (leading slash). -/
def pyIsAbs (p : String) : Bool :=
  match p.data with
  | '/' :: _ => true
  | _ => false

/-- `os.path.join(a, b)` for POSIX paths (two arguments). -/
def pyPathJoin (a b : String) : String :=
  if pyIsAbs b then b
  else if a = "" then b
  else if a.data.getLast? = some '/' then a ++ b
  else a ++ "/" ++ b

/-- `str.strip()`. -/
def pyStrip (s : String) : String := String.mk (pyStripChars s.toList)

/-! ### ansible.py: inventory synthesis and extra-variable merging -/

/-- A Python value stored in an extravars dict (strings and ints occur). -/
inductive PyVal
  | str (s : String)
  | int (n : Int)
deriving DecidableEq, Repr

/-- One inventory host line as produced by the f-strings of
`_build_inventory_content` (identical in both branches apart from the
leading name). -/
def invLine (name : String) (cfg : SSHConfig) : String :=
  name ++ " ansible_host=" ++ cfg.hostname ++
    " ansible_port=" ++ toString cfg.port ++
    " ansible_user=" ++ cfg.user ++
    " ansible_ssh_private_key_file=" ++ cfg.identityfile ++
    " ansible_ssh_common_args='-o StrictHostKeyChecking=no -o UserKnownHostsFile=/dev/null'" ++
    " ansible_python_interpreter=/usr/bin/python3"

/-- Truthiness of the `host_patterns` argument (`and host_patterns`):
`None` and the empty list are falsy. -/
def pyTruthyPatterns : Option (List String) → Bool
  | none => false
  | some l => !l.isEmpty

/-- `_build_inventory_content(ssh_configs, host_patterns)` (ansible.py):
always starts from `lines = ["[vagrant]"]`; with exactly one config and
truthy patterns, one line per pattern using that config; otherwise one line
per alias; result is joined with newlines plus a trailing newline. -/
def buildInventoryContent (sshConfigs : List (String × SSHConfig))
    (hostPatterns : Option (List String)) : String :=
  let lines :=
    if sshConfigs.length = 1 ∧ pyTruthyPatterns hostPatterns then
      match sshConfigs with
      | (_, cfg) :: _ =>
        "[vagrant]" :: (hostPatterns.getD []).map (fun p => invLine p cfg)
      | [] => ["[vagrant]"]  -- unreachable: the guard forces length 1
    else
      "[vagrant]" :: sshConfigs.map (fun nc => invLine nc.1 nc.2)
  String.intercalate "\n" lines ++ "\n"

/-- Python `d1 | d2` on dicts: keys of `d1` in order with values overridden
by `d2` where present, then the keys of `d2` not in `d1`, in order. -/
def pyDictUnion (a b : List (String × α)) : List (String × α) :=
  a.map (fun p => (p.1, (dictGet p.1 b).getD p.2)) ++
    b.filter (fun p => !dictHas p.1 a)

/-- `base_extravars = (extravars or \x7b\x7d) | ssh_vars`
(run_playbook_on_vagrant_hosts). -/
def mergeExtravars (extravars : Option (List (String × PyVal)))
    (sshVars : List (String × PyVal)) : List (String × PyVal) :=
  pyDictUnion (extravars.getD []) sshVars

/-- The `ssh_vars` dict built when a caller-supplied inventory file is used. -/
def sshVarsOf (cfg : SSHConfig) : List (String × PyVal) :=
  [("ansible_host", .str cfg.hostname),
   ("ansible_port", .int cfg.port),
   ("ansible_user", .str cfg.user),
   ("ansible_ssh_private_key_file", .str cfg.identityfile),
   ("ansible_ssh_common_args",
     .str "-o StrictHostKeyChecking=no -o UserKnownHostsFile=/dev/null"),
   ("ansible_python_interpreter", .str "/usr/bin/python3")]

/-- `extract_play_hosts(playbook) or None`: an empty pattern list collapses
to `None`. -/
def hostPatternsOpt (playHosts : List String) : Option (List String) :=
  match playHosts with
  | [] => none
  | l => some l

/-- The inventory/extravars decision of `run_playbook_on_vagrant_hosts`
before the runner is spawned: which inventory is passed, what inventory
document (if any) is written, and the merged extra variables. -/
structure PlaybookPrep where
  inventory : String
  wroteInventory : Option String
  baseExtravars : List (String × PyVal)
deriving DecidableEq, Repr

/-- Errors escaping `run_playbook_on_vagrant_hosts` before the run itself. -/
inductive PrepError
  | stopIteration
deriving DecidableEq, Repr

/-- The preparation phase of `run_playbook_on_vagrant_hosts(playbook, ...)`:
with an inventory file, inline `ssh_vars` from the first config (raising
`StopIteration` if there is none); without one, a generated inventory
document written under the artifact dir and empty `ssh_vars`. -/
def preparePlaybookRun (sshConfigs : List (String × SSHConfig))
    (inventoryFile : Option String)
    (extravars : Option (List (String × PyVal)))
    (playHosts : List String) (artifactDir : String) :
    Except PrepError PlaybookPrep :=
  match inventoryFile with
  | some inv =>
    match sshConfigs with
    | [] => .error .stopIteration  -- next(iter(ssh_configs.values())) on empty
    | (_, cfg) :: _ =>
      .ok { inventory := inv, wroteInventory := none,
            baseExtravars := mergeExtravars extravars (sshVarsOf cfg) }
  | none =>
    let content := buildInventoryContent sshConfigs (hostPatternsOpt playHosts)
    .ok { inventory := pyPathJoin artifactDir "inventory.ini",
          wroteInventory := some content,
          baseExtravars := mergeExtravars extravars [] }

/-! ### runner.py: the VagrantRunner state machine -/

/-- The live remote handle built by `testinfra.get_host`. -/
structure HostHandle where
  uri : String
  identityFile : String
  extraArgs : String
deriving DecidableEq, Repr

/-- `get_host(f"ssh://...", ssh_identity_file=..., ssh_extra_args=...)`. -/
def mkHostHandle (cfg : SSHConfig) : HostHandle :=
  { uri := "ssh://" ++ cfg.user ++ "@" ++ cfg.hostname ++ ":" ++ toString cfg.port,
    identityFile := cfg.identityfile,
    extraArgs := "-o StrictHostKeyChecking=accept-new -o UserKnownHostsFile=/dev/null" }

/-- The mutable fields of a `VagrantRunner` instance. -/
structure RunnerState where
  vagrantfile : Option String := none
  host : Option HostHandle := none
  hosts : List (String × HostHandle) := []
  sshConfigs : List (String × SSHConfig) := []
deriving DecidableEq, Repr

/-- The state of a freshly constructed runner. -/
def initRunnerState : RunnerState := {}

/-- Exceptions raised by `VagrantRunner.__call__`. -/
inductive RunError
  | fileNotFound (path : String)
  | commandFailed
  | hostNotFound (name : String) (available : List String)
  | playbookFailed
  | stopIteration
deriving DecidableEq, Repr

/-- The externally determined outcomes of one `__call__`: the resolved
Vagrantfile path, whether it exists, whether `vagrant up` and the playbook
succeed, the `vagrant ssh-config` output, and the optional target alias. -/
structure CallEnv where
  vfAbs : String
  vfExists : Bool
  upOk : Bool
  sshOutput : String
  targetHost : Option String
  playbookOk : Bool
deriving DecidableEq, Repr

/-- `VagrantRunner.__call__` (runner.py, lines 221-304): existence check,
state reset (note: `_host` is NOT reset), provider start, ssh-config
discovery, optional target narrowing, playbook run, handle construction. -/
def callRunner (st : RunnerState) (env : CallEnv) :
    RunnerState × Except RunError HostHandle :=
  if ¬ env.vfExists then (st, .error (.fileNotFound env.vfAbs))
  else
    let st1 : RunnerState :=
      { st with vagrantfile := some env.vfAbs, hosts := [], sshConfigs := [] }
    if ¬ env.upOk then (st1, .error .commandFailed)
    else
      let allCfgs := fromSshConfigMulti env.sshOutput
      let st2 := { st1 with sshConfigs := allCfgs }
      match env.targetHost with
      | some t =>
        match dictGet t allCfgs with
        | none => (st2, .error (.hostNotFound t (allCfgs.map Prod.fst)))
        | some cfg =>
          if ¬ env.playbookOk then (st2, .error .playbookFailed)
          else
            let h := mkHostHandle cfg
            ({ st2 with hosts := [(t, h)], host := some h }, .ok h)
      | none =>
        if ¬ env.playbookOk then (st2, .error .playbookFailed)
        else
          match allCfgs.map (fun nc => (nc.1, mkHostHandle nc.2)) with
          | [] => (st2, .error .stopIteration)  -- next(iter(\x7b\x7d.values()))
          | h :: hs =>
            ({ st2 with hosts := h :: hs, host := some h.2 }, .ok h.2)

/-- Errors raised by the accessors. -/
inductive AccessError
  | notInvoked
  | hostNotFound (name : String) (available : List String)
deriving DecidableEq, Repr

/-- `VagrantRunner.host` property. -/
def RunnerState.hostAccessor (st : RunnerState) : Except AccessError HostHandle :=
  match st.host with
  | none => .error .notInvoked
  | some h => .ok h

/-- `VagrantRunner.hosts` property (`if not self._hosts`). -/
def RunnerState.hostsAccessor (st : RunnerState) :
    Except AccessError (List (String × HostHandle)) :=
  if st.hosts.isEmpty then .error .notInvoked else .ok st.hosts

/-- `VagrantRunner.get_host(name)`. -/
def RunnerState.getHostAccessor (st : RunnerState) (name : String) :
    Except AccessError HostHandle :=
  if st.hosts.isEmpty then .error .notInvoked
  else
    match dictGet name st.hosts with
    | none => .error (.hostNotFound name (st.hosts.map Prod.fst))
    | some h => .ok h

/-- `VagrantRunner.ssh_configs` property (`if not self._ssh_configs`). -/
def RunnerState.sshConfigsAccessor (st : RunnerState) :
    Except AccessError (List (String × SSHConfig)) :=
  if st.sshConfigs.isEmpty then .error .notInvoked else .ok st.sshConfigs

/-- Run a sequence of calls, threading the instance state. -/
def runTrace (st : RunnerState) : List CallEnv → RunnerState
  | [] => st
  | e :: es => runTrace (callRunner st e).1 es

/-- Whether any call of the sequence returns successfully. -/
def anySuccess (st : RunnerState) : List CallEnv → Bool
  | [] => false
  | e :: es =>
    match callRunner st e with
    | (_, .ok _) => true
    | (st', .error _) => anySuccess st' es

/-! ### main.py: fixture-scoped lifecycle and teardown -/

/-- The `vagrant_file` configuration sources read by
`_resolve_vagrant_file` (main.py): CLI option and ini value. -/
structure MainConfig where
  vagrantFileOpt : Option String := none
  vagrantFileIni : String := ""
deriving DecidableEq, Repr

/-- `_resolve_vagrant_file(config, base_dir)` (main.py):
`vf = getoption or getini.strip() or "Vagrantfile"`, made absolute against
`base_dir` unless already absolute. -/
def resolveVagrantFileMain (cfg : MainConfig) (baseDir : String) : String :=
  let ini := pyStrip cfg.vagrantFileIni
  let vf :=
    match cfg.vagrantFileOpt with
    | some s => if s ≠ "" then s else (if ini ≠ "" then ini else "Vagrantfile")
    | none => if ini ≠ "" then ini else "Vagrantfile"
  if pyIsAbs vf then vf else pyPathJoin baseDir vf

/-- `ShutdownMode` (halt | destroy | none). -/
inductive ShutdownMode
  | halt
  | destroy
  | none
deriving DecidableEq, Repr

/-- A provider command invocation (`vagrant ...` subprocess). -/
inductive ProviderCmd
  | up (vagrantfile : String) (provider : String)
  | halt (vagrantfile : String)
  | destroy (vagrantfile : String) (force : Bool)
  | sshConfigDump (vagrantfile : String)
deriving DecidableEq, Repr

/-- `subprocess.run(["vagrant", ...], check=check)` given the command's exit
code: raises `CalledProcessError` exactly when `check` is set and the code is
non-zero. -/
def pyRun (check : Bool) (rc : Int) : Except Unit Int :=
  if check ∧ rc ≠ 0 then .error () else .ok rc

/-- `halt(vagrantfile)` (vagrant.py): `_run(["halt"], ..., check=False)`. -/
def vagrantHalt (rc : Int) : Except Unit Int := pyRun false rc

/-- `destroy(vagrantfile, force=True)` (vagrant.py): `check=False`. -/
def vagrantDestroy (rc : Int) : Except Unit Int := pyRun false rc

/-- The `finally:` block of the `vagrant_run` fixture (main.py, lines
162-173): no command when `vf_abs` is falsy (never assigned, i.e. `None`, or
an empty string); otherwise the single command selected by the mode. -/
def teardownCommands (vfAbs : Option String) (mode : ShutdownMode) :
    List ProviderCmd :=
  match vfAbs with
  | Option.none => []
  | some vf =>
    if vf = "" then []
    else
      match mode with
      | .halt => [.halt vf]
      | .destroy => [.destroy vf true]
      | .none => []

/-- Errors raised by the fixture's `_runner` closure. -/
inductive MainError
  | playbookNotFound
  | vagrantfileNotFound (path : String)
  | commandFailed
  | sshConfigError (msg : String)
  | playbookFailed
deriving DecidableEq, Repr

/-- The externally determined outcomes of one `_runner(...)` call in the
`vagrant_run` fixture. -/
structure MainEnv where
  projectDir : String
  vagrantFileArg : Option String
  config : MainConfig
  playbookExists : Bool
  fsExists : String → Bool
  upOk : Bool
  sshOutput : String
  playbookOk : Bool

/-- The Vagrantfile path the `_runner` closure assigns to `vf_abs`
(main.py, lines 133-140): the truthy per-call argument joined against the
project dir, else `_resolve_vagrant_file`. -/
def mainResolveVf (env : MainEnv) : String :=
  match env.vagrantFileArg with
  | some s =>
    if s ≠ "" then (if pyIsAbs s then s else pyPathJoin env.projectDir s)
    else resolveVagrantFileMain env.config env.projectDir
  | none => resolveVagrantFileMain env.config env.projectDir

/-- One call of the `_runner` closure (main.py, lines 120-160), returning
the updated `vf_abs` nonlocal, the provider commands invoked, and the
outcome.  `vf_abs` is assigned BEFORE the on-disk existence check; playbook
resolution happens before the assignment. -/
def mainRunnerStep (vfAbs0 : Option String) (env : MainEnv) :
    Option String × List ProviderCmd × Except MainError HostHandle :=
  if ¬ env.playbookExists then (vfAbs0, [], .error .playbookNotFound)
  else
    let vf := mainResolveVf env
    if ¬ env.fsExists vf then (some vf, [], .error (.vagrantfileNotFound vf))
    else if ¬ env.upOk then (some vf, [.up vf "libvirt"], .error .commandFailed)
    else
      match vagrantFromSshConfig env.sshOutput with
      | .error m =>
        (some vf, [.up vf "libvirt", .sshConfigDump vf], .error (.sshConfigError m))
      | .ok cfg =>
        if ¬ env.playbookOk then
          (some vf, [.up vf "libvirt", .sshConfigDump vf], .error .playbookFailed)
        else
          (some vf, [.up vf "libvirt", .sshConfigDump vf], .ok (mkHostHandle cfg))

/-- A concrete descriptor used by witnesses and counterexamples. -/
def cfgA : SSHConfig :=
  { hostname := "127.0.0.1", port := 2222, user := "vagrant", identityfile := "/k" }

/-- A second concrete descriptor used by witnesses and counterexamples. -/
def cfgB : SSHConfig :=
  { hostname := "2.2.2.2", port := 23, user := "u", identityfile := "/j" }

/-- A concrete single-host `vagrant ssh-config` dump that parses to `cfgA`
under the alias `default`. -/
def sshTextA : String :=
  "Host default\nHostName 127.0.0.1\nUser vagrant\nPort 2222\nIdentityFile /k\n"

/-- A call environment in which everything succeeds. -/
def envOkA : CallEnv :=
  { vfAbs := "/p/Vagrantfile", vfExists := true, upOk := true,
    sshOutput := sshTextA, targetHost := Option.none, playbookOk := true }

/-- A call environment in which the provider start fails. -/
def envUpFail : CallEnv :=
  { vfAbs := "/p/Vagrantfile", vfExists := true, upOk := false,
    sshOutput := "", targetHost := Option.none, playbookOk := true }

/-- A call environment in which the playbook run fails after discovery. -/
def envPlaybookFail : CallEnv :=
  { vfAbs := "/p/Vagrantfile", vfExists := true, upOk := true,
    sshOutput := sshTextA, targetHost := Option.none, playbookOk := false }

/-- A call environment requesting a target alias that is not discovered. -/
def envTargetAbsent : CallEnv :=
  { vfAbs := "/p/Vagrantfile", vfExists := true, upOk := true,
    sshOutput := sshTextA, targetHost := some "db", playbookOk := true }

/-- A fixture environment whose Vagrantfile does not exist on disk. -/
def mainEnvMissingVf : MainEnv :=
  { projectDir := "/proj", vagrantFileArg := Option.none, config := {},
    playbookExists := true, fsExists := fun _ => false, upOk := true,
    sshOutput := "", playbookOk := true }

/-! ## Lemmas about the parser -/

lemma Fields.eq_empty_of_not_nonempty (f : Fields) (h : f.nonempty = false) :
    f = {} := by
  cases f with
  | mk a b c d => cases a <;> cases b <;> cases c <;> cases d <;>
      simp_all [Fields.nonempty]

lemma parseSshConfigBlock_empty :
    parseSshConfigBlock {} =
      .error "ssh-config missing: HostName, User, Port, IdentityFile" := by
  rfl

lemma flushBlock_some (hosts : List (String × SSHConfig))
    (b : List Char × Fields) :
    flushBlock hosts (some b) =
      match parseSshConfigBlock b.2 with
      | .ok c => dictInsert (String.mk b.1) c hosts
      | .error _ => hosts := by
  obtain ⟨a, f⟩ := b
  by_cases hf : f.nonempty = true
  · simp [flushBlock, hf]
  · have hfe : f = {} :=
      Fields.eq_empty_of_not_nonempty f (by simpa using hf)
    subst hfe
    simp [flushBlock, Fields.nonempty, parseSshConfigBlock_empty]

lemma scanSsh_eq_foldl (lines : List String) :
    ∀ (hosts : List (String × SSHConfig)) (cur : Option (List Char × Fields)),
      scanSsh hosts cur lines =
        (blocksAux cur lines).foldl (fun h b => flushBlock h (some b)) hosts := by
  induction lines with
  | nil =>
    intro hosts cur
    cases cur <;> simp [scanSsh, blocksAux, flushBlock]
  | cons l ls ih =>
    intro hosts cur
    cases hH : lineHost l.data with
    | some a =>
      cases cur with
      | none => simp [scanSsh, blocksAux, hH, ih, flushBlock]
      | some b => simp [scanSsh, blocksAux, hH, ih]
    | none =>
      cases cur with
      | none => simp [scanSsh, blocksAux, hH, ih]
      | some b =>
        obtain ⟨a, f⟩ := b
        cases hK : lineKV l.data with
        | none => simp [scanSsh, blocksAux, hH, hK, ih]
        | some kv => simp [scanSsh, blocksAux, hH, hK, ih]

/-- The scan of `_from_ssh_config_multi` is the fold of per-block flushing
over the block decomposition. -/
lemma fromSshConfigMulti_eq_foldl_blocks (text : String) :
    fromSshConfigMulti text =
      (blocksOf text).foldl (fun h b => flushBlock h (some b)) [] := by
  unfold fromSshConfigMulti blocksOf
  exact scanSsh_eq_foldl _ _ _

lemma foldl_flush_eq_foldl_valid (bs : List (List Char × Fields)) :
    ∀ hosts : List (String × SSHConfig),
      bs.foldl (fun h b => flushBlock h (some b)) hosts =
        (bs.filterMap fun b =>
          match parseSshConfigBlock b.2 with
          | .ok c => some (String.mk b.1, c)
          | .error _ => none).foldl (fun h p => dictInsert p.1 p.2 h) hosts := by
  induction bs with
  | nil => intro hosts; simp
  | cons b bs ih =>
    intro hosts
    rw [List.foldl_cons, flushBlock_some]
    cases hp : parseSshConfigBlock b.2 with
    | ok c => simp [hp, List.filterMap_cons, ih]
    | error e => simp [hp, List.filterMap_cons, ih]

/-- `_from_ssh_config_multi` equals the ordered insertion of the valid
blocks' descriptors. -/
lemma fromSshConfigMulti_eq_foldl_validBlocks (text : String) :
    fromSshConfigMulti text =
      (validBlocks text).foldl (fun h p => dictInsert p.1 p.2 h) [] := by
  rw [fromSshConfigMulti_eq_foldl_blocks, foldl_flush_eq_foldl_valid]
  rfl

lemma dictHas_append (k : String) (xs ys : List (String × α)) :
    dictHas k (xs ++ ys) = (dictHas k xs || dictHas k ys) := by
  induction xs with
  | nil => simp [dictHas]
  | cons p ps ih => simp [dictHas, ih, Bool.or_assoc]

lemma dictInsert_of_not_has (k : String) (v : α) (d : List (String × α))
    (h : dictHas k d = false) : dictInsert k v d = d ++ [(k, v)] := by
  induction d with
  | nil => simp [dictInsert]
  | cons p ps ih =>
    simp [dictHas, Bool.or_eq_false_iff] at h
    simp [dictInsert, h.1, ih h.2]

lemma foldl_dictInsert_fresh (ps : List (String × α)) :
    ∀ acc : List (String × α), (ps.map Prod.fst).Nodup →
      (∀ k ∈ ps.map Prod.fst, dictHas k acc = false) →
      ps.foldl (fun h p => dictInsert p.1 p.2 h) acc = acc ++ ps := by
  induction ps with
  | nil => intro acc _ _; simp
  | cons p ps ih =>
    intro acc hnd hfresh
    rw [List.map_cons, List.nodup_cons] at hnd
    obtain ⟨hp1, hnd'⟩ := hnd
    have hp : dictHas p.1 acc = false := hfresh p.1 (by simp)
    have hfr : ∀ k ∈ ps.map Prod.fst, dictHas k (acc ++ [(p.1, p.2)]) = false := by
      intro k hk
      have hne : ¬ (p.1 = k) := fun he => hp1 (he ▸ hk)
      rw [dictHas_append, hfresh k (by simp [hk])]
      simp [dictHas, hne]
    rw [List.foldl_cons, dictInsert_of_not_has _ _ _ hp, ih _ hnd' hfr]
    simp

/-- With pairwise distinct aliases among the valid blocks, the multi parse
is exactly the list of valid blocks. -/
lemma fromSshConfigMulti_eq_validBlocks (text : String)
    (h : ((validBlocks text).map Prod.fst).Nodup) :
    fromSshConfigMulti text = validBlocks text := by
  rw [fromSshConfigMulti_eq_foldl_validBlocks,
    foldl_dictInsert_fresh _ [] h (fun k _ => rfl)]
  simp

lemma blocksAux_none_of_no_host (lines : List String)
    (h : ∀ l ∈ lines, lineHost l.toList = none) :
    blocksAux none lines = [] := by
  induction lines with
  | nil => rfl
  | cons l ls ih =>
    have hl := h l (by simp)
    simp [blocksAux, show lineHost l.data = none from hl,
      ih fun x hx => h x (by simp [hx])]

lemma blocksAux_some_head (ls : List String) :
    ∀ (a : List Char) (f : Fields),
      (blocksAux (some (a, f)) ls).head? =
        some (a, vagrantScanFields true f ls) := by
  induction ls with
  | nil => intro a f; rfl
  | cons l ls ih =>
    intro a f
    cases hH : lineHost l.data with
    | some a2 => simp [blocksAux, vagrantScanFields, hH]
    | none =>
      cases hK : lineKV l.data with
      | none => simp [blocksAux, vagrantScanFields, hH, hK, ih]
      | some kv => simp [blocksAux, vagrantScanFields, hH, hK, ih]

/-- The fields accumulated by vagrant.py's single-host scan are the final
fields of the first host block (or empty when there is none). -/
lemma vagrantScanFields_eq_head (lines : List String) :
    vagrantScanFields false {} lines =
      (((blocksAux none lines).head?).map Prod.snd).getD {} := by
  induction lines with
  | nil => rfl
  | cons l ls ih =>
    cases hH : lineHost l.data with
    | some a => simp [blocksAux, vagrantScanFields, hH, blocksAux_some_head]
    | none => simp [blocksAux, vagrantScanFields, hH, ih]

lemma Fields.get_empty (k : SSHKey) : Fields.get {} k = none := by
  cases k <;> rfl

lemma casing_mem_missingOf (f : Fields) (k : SSHKey) (h : f.get k = none) :
    k.casing ∈ missingOf f ∧ missingOf f ≠ [] := by
  have hk : k ∈ requiredKeys.filter (fun k => (f.get k).isNone) := by
    cases k <;> simp [requiredKeys, h]
  have hmem : k.casing ∈ missingOf f := List.mem_map.mpr ⟨k, hk, rfl⟩
  exact ⟨hmem, fun he => by simp [he] at hmem⟩

lemma missingOf_eq_nil (f : Fields) :
    missingOf f = [] ↔
      f.hostname.isSome ∧ f.user.isSome ∧ f.port.isSome ∧
        f.identityfile.isSome := by
  obtain ⟨a, b, c, d⟩ := f
  cases a <;> cases b <;> cases c <;> cases d <;>
    simp [missingOf, requiredKeys, Fields.get]

lemma parseSshConfigBlock_missing (f : Fields) (h : missingOf f ≠ []) :
    parseSshConfigBlock f =
      .error ("ssh-config missing: " ++ String.intercalate ", " (missingOf f)) := by
  simp [parseSshConfigBlock, h]

/-! ## Claim C1 -/

/-- C1 counterexample: `_parse_ssh_config_block` performs no range check on
the port — a block with `Port 0` constructs a descriptor whose port is `0`,
outside the claimed range 1-65535. -/
theorem c1_port_range_counterexample :
    parseSshConfigBlock
        { hostname := some "h", user := some "u", port := some "0",
          identityfile := some "f" } =
      .ok { hostname := "h", port := 0, user := "u", identityfile := "f" } ∧
    ¬ (1 ≤ (0 : Int) ∧ (0 : Int) ≤ 65535) := by
  exact ⟨rfl, by decide⟩

/-- C1 (amended): `_parse_ssh_config_block` succeeds exactly when all four
fields are present and the port text parses as an integer; the descriptor
copies the three string fields verbatim and its port is the parsed integer
(with no range restriction); there is no partial descriptor. -/
theorem c1_descriptor_construction (f : Fields) (c : SSHConfig) :
    parseSshConfigBlock f = .ok c ↔
      f.hostname = some c.hostname ∧ f.user = some c.user ∧
      f.identityfile = some c.identityfile ∧
      ∃ p, f.port = some p ∧ pyInt p = some c.port := by
  obtain ⟨a, b, po, d⟩ := f
  cases a <;> cases b <;> cases po <;> cases d <;>
    simp [parseSshConfigBlock, missingOf, requiredKeys, Fields.get]
  rename_i a b po d
  cases hp : pyInt po with
  | none => simp [hp]
  | some n =>
    obtain ⟨ch, cp, cu, ci⟩ := c
    simp [hp, SSHConfig.mk.injEq]
    tauto

/-! ## Claim C2 -/

/-- C2 counterexample: with two fully valid blocks sharing the alias `a`,
`_from_ssh_config` returns the SECOND block's descriptor (the dict update
overwrites in place), not the first valid block's. -/
theorem c2_first_block_counterexample :
    fromSshConfig
        "Host a\nHostName h\nUser u\nPort 1\nIdentityFile f\nHost a\nHostName g\nUser u\nPort 2\nIdentityFile f" =
      .ok { hostname := "g", port := 2, user := "u", identityfile := "f" } ∧
    (validBlocks
        "Host a\nHostName h\nUser u\nPort 1\nIdentityFile f\nHost a\nHostName g\nUser u\nPort 2\nIdentityFile f").head? =
      some ("a", { hostname := "h", port := 1, user := "u", identityfile := "f" }) ∧
    ({ hostname := "g", port := 2, user := "u", identityfile := "f" } : SSHConfig) ≠
      { hostname := "h", port := 1, user := "u", identityfile := "f" } := by
  exact ⟨rfl, rfl, by decide⟩

/-- C2 (amended): provided the valid blocks carry pairwise distinct aliases,
`_from_ssh_config` returns the first valid block's descriptor — fields equal
to the parsed (quote-stripped) values — and fails with the
"no valid host blocks" error when no valid block exists (the error case
needs no distinctness). -/
theorem c2_parse_one (text : String)
    (hnd : ((validBlocks text).map Prod.fst).Nodup) :
    (validBlocks text = [] →
      fromSshConfig text = .error "ssh-config contains no valid host blocks") ∧
    (∀ a c rest, validBlocks text = (a, c) :: rest →
      fromSshConfig text = .ok c) := by
  constructor
  · intro h
    unfold fromSshConfig
    rw [fromSshConfigMulti_eq_validBlocks text hnd, h]
  · intro a c rest h
    unfold fromSshConfig
    rw [fromSshConfigMulti_eq_validBlocks text hnd, h]

/-- C2 witness: the amended theorem applied to a concrete two-host text. -/
theorem c2_parse_one_witness :
    fromSshConfig
        "Host web\nHostName 1.2.3.4\nUser u\nPort 22\nIdentityFile k\nHost db\nHostName 5.6.7.8\nUser v\nPort 23\nIdentityFile j" =
      .ok { hostname := "1.2.3.4", port := 22, user := "u", identityfile := "k" } :=
  (c2_parse_one _ (by decide)).2 "web"
    { hostname := "1.2.3.4", port := 22, user := "u", identityfile := "k" }
    [("db", { hostname := "5.6.7.8", port := 23, user := "v", identityfile := "j" })]
    (by rfl)

/-! ## Claim C3 -/

/-- C3 counterexample: two fully valid host blocks that share an alias
produce a single-entry mapping, not one entry per valid block. -/
theorem c3_entry_per_block_counterexample :
    (validBlocks
        "Host a\nHostName h\nUser u\nPort 1\nIdentityFile f\nHost a\nHostName g\nUser u\nPort 2\nIdentityFile f").length = 2 ∧
    (fromSshConfigMulti
        "Host a\nHostName h\nUser u\nPort 1\nIdentityFile f\nHost a\nHostName g\nUser u\nPort 2\nIdentityFile f").length = 1 := by
  exact ⟨rfl, rfl⟩

/-- C3 (amended): when the fully valid blocks carry pairwise distinct
aliases, `_from_ssh_config_multi` returns exactly the valid blocks — one
entry per valid block, keyed by its alias, each value built from that
block's own fields; invalid or empty blocks are dropped; and a text with no
host declaration yields the empty mapping. -/
theorem c3_parse_all (text : String) :
    (((validBlocks text).map Prod.fst).Nodup →
      fromSshConfigMulti text = validBlocks text) ∧
    ((∀ l ∈ pySplitlines text, lineHost l.toList = none) →
      fromSshConfigMulti text = []) := by
  constructor
  · exact fromSshConfigMulti_eq_validBlocks text
  · intro h
    rw [fromSshConfigMulti_eq_foldl_blocks]
    unfold blocksOf
    rw [blocksAux_none_of_no_host _ h]
    rfl

/-- C3 witness: the amended theorem applied to a concrete two-host text and
to a text without host declarations. -/
theorem c3_parse_all_witness :
    fromSshConfigMulti
        "Host web\nHostName 1.2.3.4\nUser u\nPort 22\nIdentityFile k\nHost db\nHostName 5.6.7.8\nUser v\nPort 23\nIdentityFile j" =
      validBlocks
        "Host web\nHostName 1.2.3.4\nUser u\nPort 22\nIdentityFile k\nHost db\nHostName 5.6.7.8\nUser v\nPort 23\nIdentityFile j" ∧
    fromSshConfigMulti "# just a comment\nPort 99\n" = [] :=
  ⟨(c3_parse_all _).1 (by decide), (c3_parse_all _).2 (by decide)⟩

/-! ## Claim C4 -/

/-- C4: block validation raises an error naming every missing canonical key
name; a present-but-non-numeric port raises an error naming the literal
value (in `repr` quotes); and vagrant.py's strict single-host parse of a
text whose every block misses some field fails with the missing-key error
naming that field's canonical name. -/
theorem c4_validation_errors :
    (∀ f : Fields, missingOf f ≠ [] →
      parseSshConfigBlock f =
        .error ("ssh-config missing: " ++
          String.intercalate ", " (missingOf f))) ∧
    (∀ (f : Fields) (k : SSHKey), f.get k = none →
      k.casing ∈ missingOf f) ∧
    (∀ (f : Fields) (po : String), missingOf f = [] → f.port = some po →
      pyInt po = none →
      parseSshConfigBlock f = .error ("ssh-config invalid Port: " ++ pyRepr po)) ∧
    (∀ (text : String) (k : SSHKey),
      (∀ b ∈ blocksOf text, (b.2).get k = none) →
      vagrantFromSshConfig text =
        .error ("ssh-config missing: " ++
          String.intercalate ", "
            (missingOf (vagrantScanFields false {} (pySplitlines text)))) ∧
      k.casing ∈ missingOf (vagrantScanFields false {} (pySplitlines text))) := by
  refine ⟨parseSshConfigBlock_missing, ?_, ?_, ?_⟩
  · intro f k h
    exact (casing_mem_missingOf f k h).1
  · intro f po hm hpo hpi
    obtain ⟨h1, h2, h3, h4⟩ := (missingOf_eq_nil f).mp hm
    obtain ⟨a, ha⟩ := Option.isSome_iff_exists.mp h1
    obtain ⟨b, hb⟩ := Option.isSome_iff_exists.mp h2
    obtain ⟨d, hd⟩ := Option.isSome_iff_exists.mp h4
    simp [parseSshConfigBlock, hm, ha, hb, hd, hpo, hpi]
  · intro text k h
    have hf : (vagrantScanFields false {} (pySplitlines text)).get k = none := by
      rw [vagrantScanFields_eq_head]
      cases hB : (blocksAux none (pySplitlines text)).head? with
      | none => simp [Fields.get_empty]
      | some b =>
        simp only [hB, Option.map_some', Option.getD_some]
        exact h b (by
          unfold blocksOf
          exact List.mem_of_mem_head? hB)
    obtain ⟨hmem, hne⟩ :=
      casing_mem_missingOf (vagrantScanFields false {} (pySplitlines text)) k hf
    exact ⟨parseSshConfigBlock_missing _ hne, hmem⟩

/-- C4 witness: the validation errors at concrete inputs. -/
theorem c4_validation_errors_witness :
    parseSshConfigBlock
        { user := some "vagrant", port := some "2222",
          identityfile := some "/p" } =
      .error "ssh-config missing: HostName" ∧
    "Port" ∈ missingOf { hostname := some "h" } ∧
    parseSshConfigBlock
        { hostname := some "h", user := some "u", port := some "xx",
          identityfile := some "/p" } =
      .error "ssh-config invalid Port: 'xx'" ∧
    vagrantFromSshConfig "Host default\nUser vagrant\nPort 2222\n" =
      .error "ssh-config missing: HostName, IdentityFile" := by
  refine ⟨?_, ?_, ?_, ?_⟩
  · exact c4_validation_errors.1
      { user := some "vagrant", port := some "2222", identityfile := some "/p" }
      (by decide)
  · exact c4_validation_errors.2.1 { hostname := some "h" } .port rfl
  · exact c4_validation_errors.2.2.1
      { hostname := some "h", user := some "u", port := some "xx",
        identityfile := some "/p" } "xx" (by decide) rfl (by rfl)
  · exact (c4_validation_errors.2.2.2
      "Host default\nUser vagrant\nPort 2222\n" .hostname (by decide)).1

/-! ## Lemmas about dict lookup and union -/

lemma dictGet_append (k : String) (xs ys : List (String × α)) :
    dictGet k (xs ++ ys) =
      match dictGet k xs with
      | some v => some v
      | none => dictGet k ys := by
  induction xs with
  | nil => simp [dictGet]
  | cons p ps ih =>
    by_cases hp : p.1 = k
    · simp [dictGet, hp]
    · simp [dictGet, hp, ih]

lemma dictHas_eq_false_iff (k : String) (d : List (String × α)) :
    dictHas k d = false ↔ dictGet k d = none := by
  induction d with
  | nil => simp [dictHas, dictGet]
  | cons p ps ih =>
    by_cases hp : p.1 = k
    · simp [dictHas, dictGet, hp]
    · simp [dictHas, dictGet, hp, ih]

lemma dictGet_map_override (k : String) (a b : List (String × α)) :
    dictGet k (a.map fun p => (p.1, (dictGet p.1 b).getD p.2)) =
      (dictGet k a).map fun v => (dictGet k b).getD v := by
  induction a with
  | nil => simp [dictGet]
  | cons p ps ih =>
    by_cases hp : p.1 = k
    · subst hp; simp [dictGet, ih]
    · simp [dictGet, hp, ih]

lemma dictGet_filter_not_has (k : String) (a b : List (String × α))
    (hk : dictHas k a = false) :
    dictGet k (b.filter fun p => !dictHas p.1 a) = dictGet k b := by
  induction b with
  | nil => simp [dictGet]
  | cons q qs ih =>
    by_cases hq : q.1 = k
    · subst hq; simp [List.filter_cons, hk, dictGet]
    · cases hP : dictHas q.1 a <;> simp [List.filter_cons, hP, dictGet, hq, ih]

/-! ## Claim C7 -/

/-- C7: in `base_extravars = (extravars or ...) | ssh_vars`, the merge agrees
with the connection-derived `ssh_vars` on every key it defines (connection
values override caller values, never the reverse) and with the caller map on
all other keys. -/
theorem c7_merge_override (extravars : Option (List (String × PyVal)))
    (sshVars : List (String × PyVal)) (k : String) :
    (∀ v, dictGet k sshVars = some v →
      dictGet k (mergeExtravars extravars sshVars) = some v) ∧
    (dictGet k sshVars = none →
      dictGet k (mergeExtravars extravars sshVars) =
        dictGet k (extravars.getD [])) := by
  set a := extravars.getD [] with ha
  constructor
  · intro v hv
    unfold mergeExtravars pyDictUnion
    rw [dictGet_append]
    cases hga : dictGet k a with
    | none =>
      rw [dictGet_map_override, hga]
      simp only [Option.map_none']
      rw [dictGet_filter_not_has _ _ _ ((dictHas_eq_false_iff _ _).mpr hga), hv]
    | some w =>
      rw [dictGet_map_override, hga]
      simp [hv]
  · intro hb
    unfold mergeExtravars pyDictUnion
    rw [dictGet_append]
    cases hga : dictGet k a with
    | none =>
      rw [dictGet_map_override, hga]
      simp only [Option.map_none']
      rw [dictGet_filter_not_has _ _ _ ((dictHas_eq_false_iff _ _).mpr hga), hb]
    | some w =>
      rw [dictGet_map_override, hga]
      simp [hb, hga]

/-- C7 witness: the merge at a concrete caller map and connection map. -/
theorem c7_merge_override_witness :
    dictGet "ansible_host"
        (mergeExtravars
          (some [("x", PyVal.int 1), ("ansible_host", PyVal.str "caller")])
          (sshVarsOf cfgA)) = some (PyVal.str "127.0.0.1") ∧
    dictGet "x"
        (mergeExtravars
          (some [("x", PyVal.int 1), ("ansible_host", PyVal.str "caller")])
          (sshVarsOf cfgA)) = some (PyVal.int 1) := by
  constructor
  · exact (c7_merge_override
      (some [("x", PyVal.int 1), ("ansible_host", PyVal.str "caller")])
      (sshVarsOf cfgA) "ansible_host").1 (PyVal.str "127.0.0.1") rfl
  · exact ((c7_merge_override
      (some [("x", PyVal.int 1), ("ansible_host", PyVal.str "caller")])
      (sshVarsOf cfgA) "x").2 rfl).trans rfl

/-! ## Claim C6 -/

/-- C6 counterexample: with exactly one descriptor and the pattern list
`["web"]` (and no caller inventory), the code still generates and writes a
grouped inventory document and passes NO inline connection variables — not
an inline-variable form that needs no inventory file. -/
theorem c6_single_pattern_counterexample :
    preparePlaybookRun [("default", cfgA)] Option.none Option.none ["web"] "/art" =
      .ok { inventory := "/art/inventory.ini",
            wroteInventory :=
              some (buildInventoryContent [("default", cfgA)] (some ["web"])),
            baseExtravars := [] } ∧
    buildInventoryContent [("default", cfgA)] (some ["web"]) =
      "[vagrant]\n" ++ invLine "web" cfgA ++ "\n" := by
  exact ⟨rfl, rfl⟩

/-- C6 (amended): the generated inventory document always consists of the
single group header followed by host lines — one line per pattern carrying
the single descriptor's parameters when exactly one descriptor and a
non-empty pattern list are given, otherwise one line per alias regardless of
the patterns; without a caller-supplied inventory file the document is
written under the artifact dir and no inline connection variables are
passed. -/
theorem c6_inventory_synthesis :
    (∀ (al : String) (cfg : SSHConfig) (ps : List String), ps ≠ [] →
      buildInventoryContent [(al, cfg)] (some ps) =
        String.intercalate "\n"
          ("[vagrant]" :: ps.map (fun p => invLine p cfg)) ++ "\n") ∧
    (∀ (cfgs : List (String × SSHConfig)) (ps : Option (List String)),
      cfgs.length ≠ 1 ∨ pyTruthyPatterns ps = false →
      buildInventoryContent cfgs ps =
        String.intercalate "\n"
          ("[vagrant]" :: cfgs.map (fun nc => invLine nc.1 nc.2)) ++ "\n") ∧
    (∀ (cfgs : List (String × SSHConfig))
        (ev : Option (List (String × PyVal))) (ph : List String) (art : String),
      preparePlaybookRun cfgs Option.none ev ph art =
        .ok { inventory := pyPathJoin art "inventory.ini",
              wroteInventory :=
                some (buildInventoryContent cfgs (hostPatternsOpt ph)),
              baseExtravars := mergeExtravars ev [] }) := by
  refine ⟨?_, ?_, ?_⟩
  · intro al cfg ps hps
    simp [buildInventoryContent, pyTruthyPatterns, hps]
  · intro cfgs ps h
    cases h with
    | inl h => simp [buildInventoryContent, h]
    | inr h => simp [buildInventoryContent, h]
  · intro cfgs ev ph art
    rfl

/-- C6 witness: the amended theorem applied to concrete inputs. -/
theorem c6_inventory_synthesis_witness :
    buildInventoryContent [("default", cfgA)] (some ["web"]) =
      "[vagrant]\n" ++ invLine "web" cfgA ++ "\n" ∧
    buildInventoryContent [("web", cfgA), ("db", cfgB)] (some ["pat"]) =
      "[vagrant]\n" ++ invLine "web" cfgA ++ "\n" ++ invLine "db" cfgB ++ "\n" := by
  constructor
  · exact (c6_inventory_synthesis.1 "default" cfgA ["web"] (by decide)).trans
      (by rfl)
  · exact (c6_inventory_synthesis.2.1 [("web", cfgA), ("db", cfgB)] (some ["pat"])
      (Or.inl (by decide))).trans (by rfl)

/-! ## Lemmas about path resolution -/

lemma append_ne_empty_right (a b : String) (hb : b ≠ "") : a ++ b ≠ "" := by
  intro h
  apply hb
  have hd : (a ++ b).data = [] := congrArg String.data h
  rw [String.data_append] at hd
  exact String.ext (List.append_eq_nil.mp hd).2

lemma pyPathJoin_ne_empty (a b : String) (hb : b ≠ "") : pyPathJoin a b ≠ "" := by
  unfold pyPathJoin
  split
  · exact hb
  · split
    · exact hb
    · split
      · exact append_ne_empty_right a b hb
      · exact append_ne_empty_right (a ++ "/") b hb

lemma resolveVagrantFileMain_ne_empty (cfg : MainConfig) (base : String) :
    resolveVagrantFileMain cfg base ≠ "" := by
  have hjoin : ∀ vf : String, vf ≠ "" →
      (if pyIsAbs vf then vf else pyPathJoin base vf) ≠ "" := by
    intro vf hvf
    split
    · exact hvf
    · exact pyPathJoin_ne_empty base vf hvf
  have hfb : (if pyStrip cfg.vagrantFileIni ≠ "" then pyStrip cfg.vagrantFileIni
      else "Vagrantfile") ≠ "" := by
    split
    · assumption
    · decide
  unfold resolveVagrantFileMain
  apply hjoin
  cases cfg.vagrantFileOpt with
  | none => exact hfb
  | some s =>
    dsimp only
    split
    · assumption
    · exact hfb

lemma mainResolveVf_ne_empty (env : MainEnv) : mainResolveVf env ≠ "" := by
  unfold mainResolveVf
  cases env.vagrantFileArg with
  | none => exact resolveVagrantFileMain_ne_empty _ _
  | some s =>
    dsimp only
    split
    · split
      · assumption
      · exact pyPathJoin_ne_empty _ _ (by assumption)
    · exact resolveVagrantFileMain_ne_empty _ _

/-! ## Claim C5 -/

/-- C5: scope-exit teardown invokes no provider command when the
control-file path was never resolved; otherwise exactly the one command of
the resolved policy against the resolved path (`halt`, force `destroy`, or
nothing for NONE); and `halt`/`destroy` run with `check=False`, so a
non-zero exit code never raises. -/
theorem c5_teardown_policy :
    (∀ mode, teardownCommands Option.none mode = []) ∧
    (∀ vf : String, vf ≠ "" →
      teardownCommands (some vf) ShutdownMode.halt = [ProviderCmd.halt vf] ∧
      teardownCommands (some vf) ShutdownMode.destroy =
        [ProviderCmd.destroy vf true] ∧
      teardownCommands (some vf) ShutdownMode.none = []) ∧
    (∀ rc : Int, vagrantHalt rc = .ok rc ∧ vagrantDestroy rc = .ok rc) := by
  refine ⟨fun _ => rfl, ?_, ?_⟩
  · intro vf h
    refine ⟨?_, ?_, ?_⟩ <;> simp [teardownCommands, h]
  · intro rc
    constructor <;> simp [vagrantHalt, vagrantDestroy, pyRun]

/-- C5 witness: teardown at a concrete resolved path, and a failing halt
exit code that does not raise. -/
theorem c5_teardown_policy_witness :
    teardownCommands (some "/p/Vagrantfile") ShutdownMode.halt =
      [ProviderCmd.halt "/p/Vagrantfile"] ∧
    vagrantHalt 2 = .ok 2 :=
  ⟨(c5_teardown_policy.2.1 "/p/Vagrantfile" (by decide)).1,
    (c5_teardown_policy.2.2 2).1⟩

/-! ## Claim C10 -/

/-- C10: in the module-scoped fixture, `vf_abs` is assigned before the
on-disk existence check, so a call failing with the Vagrantfile-not-found
error leaves the path resolved while no provider command was invoked, and
scope-exit teardown under HALT/DESTROY then targets that non-existent
path. -/
theorem c10_vf_assigned_before_check (vfAbs0 : Option String) (env : MainEnv)
    (hpb : env.playbookExists = true)
    (hex : env.fsExists (mainResolveVf env) = false) :
    mainRunnerStep vfAbs0 env =
      (some (mainResolveVf env), [],
        .error (.vagrantfileNotFound (mainResolveVf env))) ∧
    teardownCommands (some (mainResolveVf env)) ShutdownMode.halt =
      [ProviderCmd.halt (mainResolveVf env)] ∧
    teardownCommands (some (mainResolveVf env)) ShutdownMode.destroy =
      [ProviderCmd.destroy (mainResolveVf env) true] := by
  refine ⟨?_, ?_, ?_⟩
  · simp [mainRunnerStep, hpb, hex]
  · simp [teardownCommands, mainResolveVf_ne_empty env]
  · simp [teardownCommands, mainResolveVf_ne_empty env]

/-- C10 witness: the fixture environment with a missing Vagrantfile; the
resolved path survives the failed call and teardown targets it. -/
theorem c10_vf_assigned_before_check_witness :
    mainRunnerStep Option.none mainEnvMissingVf =
      (some "/proj/Vagrantfile", [],
        .error (.vagrantfileNotFound "/proj/Vagrantfile")) ∧
    teardownCommands (some "/proj/Vagrantfile") ShutdownMode.destroy =
      [ProviderCmd.destroy "/proj/Vagrantfile" true] :=
  ⟨(c10_vf_assigned_before_check Option.none mainEnvMissingVf rfl rfl).1,
    (c10_vf_assigned_before_check Option.none mainEnvMissingVf rfl rfl).2.2⟩

/-! ## Lemmas about the runner state machine -/

/-- A call that raises leaves the primary handle unchanged and leaves the
handle mapping either cleared or untouched. -/
lemma callRunner_error_state (st : RunnerState) (env : CallEnv)
    (st' : RunnerState) (e : RunError)
    (hc : callRunner st env = (st', .error e)) :
    st'.host = st.host ∧ (st'.hosts = [] ∨ st'.hosts = st.hosts) := by
  unfold callRunner at hc
  by_cases hvf : env.vfExists = true
  · simp only [hvf, not_true_eq_false, if_false] at hc
    by_cases hup : env.upOk = true
    · simp only [hup, not_true_eq_false, if_false] at hc
      cases ht : env.targetHost with
      | none =>
        rw [ht] at hc
        by_cases hpb : env.playbookOk = true
        · simp only [hpb, not_true_eq_false, if_false] at hc
          cases hm : (fromSshConfigMulti env.sshOutput).map
              (fun nc => (nc.1, mkHostHandle nc.2)) with
          | nil => rw [hm] at hc; cases hc; exact ⟨rfl, Or.inl rfl⟩
          | cons h hs => rw [hm] at hc; cases hc
        · simp only [hpb, not_false_eq_true, if_true] at hc
          cases hc; exact ⟨rfl, Or.inl rfl⟩
      | some t =>
        rw [ht] at hc
        dsimp only at hc
        cases hg : dictGet t (fromSshConfigMulti env.sshOutput) with
        | none => rw [hg] at hc; cases hc; exact ⟨rfl, Or.inl rfl⟩
        | some cfg =>
          rw [hg] at hc
          by_cases hpb : env.playbookOk = true
          · simp only [hpb, not_true_eq_false, if_false] at hc; cases hc
          · simp only [hpb, not_false_eq_true, if_true] at hc
            cases hc; exact ⟨rfl, Or.inl rfl⟩
    · simp only [hup, not_false_eq_true, if_true] at hc
      cases hc; exact ⟨rfl, Or.inl rfl⟩
  · simp only [hvf, not_false_eq_true, if_true] at hc
    cases hc; exact ⟨rfl, Or.inr rfl⟩

/-- Along a trace in which no call succeeds, the primary handle stays unset
and the handle mapping stays empty. -/
lemma runTrace_no_success (envs : List CallEnv) :
    ∀ st : RunnerState, st.host = none → st.hosts = [] →
      anySuccess st envs = false →
      (runTrace st envs).host = none ∧ (runTrace st envs).hosts = [] := by
  induction envs with
  | nil => intro st h1 h2 _; exact ⟨h1, h2⟩
  | cons e es ih =>
    intro st h1 h2 hs
    unfold anySuccess at hs
    unfold runTrace
    cases hc : callRunner st e with
    | mk st' r =>
      cases r with
      | ok h => rw [hc] at hs; simp at hs
      | error err =>
        rw [hc] at hs
        obtain ⟨hh, hhs⟩ := callRunner_error_state st e st' err hc
        refine ih st' (hh.trans h1) ?_ hs
        cases hhs with
        | inl h => exact h
        | inr h => exact h.trans h2

/-- A call that returns successfully leaves a non-empty handle mapping. -/
lemma callRunner_ok_hosts_ne_nil (st : RunnerState) (env : CallEnv)
    (st' : RunnerState) (h : HostHandle)
    (hc : callRunner st env = (st', .ok h)) : st'.hosts ≠ [] := by
  unfold callRunner at hc
  by_cases hvf : env.vfExists = true
  · simp only [hvf, not_true_eq_false, if_false] at hc
    by_cases hup : env.upOk = true
    · simp only [hup, not_true_eq_false, if_false] at hc
      cases ht : env.targetHost with
      | none =>
        rw [ht] at hc
        by_cases hpb : env.playbookOk = true
        · simp only [hpb, not_true_eq_false, if_false] at hc
          cases hm : (fromSshConfigMulti env.sshOutput).map
              (fun nc => (nc.1, mkHostHandle nc.2)) with
          | nil => rw [hm] at hc; cases hc
          | cons q qs => rw [hm] at hc; cases hc; simp
        · simp only [hpb, not_false_eq_true, if_true] at hc; cases hc
      | some t =>
        rw [ht] at hc
        dsimp only at hc
        cases hg : dictGet t (fromSshConfigMulti env.sshOutput) with
        | none => rw [hg] at hc; cases hc
        | some cfg =>
          rw [hg] at hc
          by_cases hpb : env.playbookOk = true
          · simp only [hpb, not_true_eq_false, if_false] at hc
            cases hc; simp
          · simp only [hpb, not_false_eq_true, if_true] at hc; cases hc
    · simp only [hup, not_false_eq_true, if_true] at hc; cases hc
  · simp only [hvf, not_false_eq_true, if_true] at hc; cases hc

/-! ## Claim C8 -/

/-- C8 counterexample: a first call that fails at the playbook step leaves
no completed run, yet the raw-descriptors accessor returns the discovered
mapping instead of raising the not-yet-invoked error. -/
theorem c8_descriptor_accessor_counterexample :
    anySuccess initRunnerState [envPlaybookFail] = false ∧
    (runTrace initRunnerState [envPlaybookFail]).sshConfigsAccessor =
      .ok [("default", cfgA)] := by
  exact ⟨rfl, rfl⟩

/-- C8 (amended): the primary-handle, full-mapping and by-alias accessors
raise the not-yet-invoked error as long as no call has succeeded; after a
successful call the handle mapping is non-empty and a by-alias lookup of an
absent alias raises a not-found error listing every present alias, and a
requested target alias absent from the discovered set fails listing the
discovered aliases (the raw-descriptors accessor, unlike the other three,
can return data after a failed call). -/
theorem c8_accessor_errors :
    (∀ envs : List CallEnv, anySuccess initRunnerState envs = false →
      (runTrace initRunnerState envs).hostAccessor = .error .notInvoked ∧
      (runTrace initRunnerState envs).hostsAccessor = .error .notInvoked ∧
      ∀ n, (runTrace initRunnerState envs).getHostAccessor n =
        .error .notInvoked) ∧
    (∀ (st : RunnerState) (env : CallEnv) (st' : RunnerState) (h : HostHandle),
      callRunner st env = (st', .ok h) →
      st'.hosts ≠ [] ∧
      ∀ n, dictGet n st'.hosts = none →
        st'.getHostAccessor n =
          .error (.hostNotFound n (st'.hosts.map Prod.fst))) ∧
    (∀ (st : RunnerState) (env : CallEnv) (t : String),
      env.targetHost = some t → env.vfExists = true → env.upOk = true →
      dictGet t (fromSshConfigMulti env.sshOutput) = none →
      (callRunner st env).2 =
        .error (.hostNotFound t
          ((fromSshConfigMulti env.sshOutput).map Prod.fst))) := by
  refine ⟨?_, ?_, ?_⟩
  · intro envs hs
    obtain ⟨h1, h2⟩ := runTrace_no_success envs initRunnerState rfl rfl hs
    refine ⟨?_, ?_, ?_⟩
    · simp [RunnerState.hostAccessor, h1]
    · simp [RunnerState.hostsAccessor, h2]
    · intro n; simp [RunnerState.getHostAccessor, h2]
  · intro st env st' h hc
    have hne := callRunner_ok_hosts_ne_nil st env st' h hc
    refine ⟨hne, ?_⟩
    intro n hn
    rw [RunnerState.getHostAccessor]
    rw [if_neg (by simpa [List.isEmpty_iff] using hne), hn]
  · intro st env t ht hvf hup hg
    unfold callRunner
    simp only [hvf, not_true_eq_false, if_false, hup, ht]
    rw [hg]

/-- C8 witness: the amended theorem at a failed-call trace, a successful
call, and an absent target alias. -/
theorem c8_accessor_errors_witness :
    (runTrace initRunnerState [envUpFail]).hostAccessor = .error .notInvoked ∧
    ((callRunner initRunnerState envOkA).1).getHostAccessor "db" =
      .error (.hostNotFound "db" ["default"]) ∧
    (callRunner initRunnerState envTargetAbsent).2 =
      .error (.hostNotFound "db" ["default"]) := by
  refine ⟨((c8_accessor_errors.1 [envUpFail]) rfl).1, ?_, ?_⟩
  · exact ((c8_accessor_errors.2.1 initRunnerState envOkA
      (callRunner initRunnerState envOkA).1
      (mkHostHandle cfgA) rfl).2 "db" rfl).trans rfl
  · exact (c8_accessor_errors.2.2 initRunnerState envTargetAbsent "db"
      rfl rfl rfl rfl).trans rfl

/-! ## Claim C9 -/

/-- C9 counterexample: after a successful run, a second call that fails at
provider start clears the handle mapping and descriptors, but the primary
handle is NOT cleared — the primary-handle accessor still returns the
earlier handle instead of raising the not-yet-invoked error. -/
theorem c9_stale_primary_counterexample :
    (callRunner initRunnerState envOkA).2 = .ok (mkHostHandle cfgA) ∧
    (callRunner (callRunner initRunnerState envOkA).1 envUpFail).2 =
      .error .commandFailed ∧
    ((callRunner (callRunner initRunnerState envOkA).1 envUpFail).1).hostAccessor
      = .ok (mkHostHandle cfgA) := by
  exact ⟨rfl, rfl, rfl⟩

/-- C9 (amended): `__call__` clears the stored handle mapping and
descriptors before provider start but not the primary handle; a call that
fails at provider start therefore leaves the full-mapping, by-alias and
raw-descriptor accessors raising the not-yet-invoked error while the
primary-handle accessor still answers as before the call. -/
theorem c9_reinvocation_state (st : RunnerState) (env : CallEnv)
    (hvf : env.vfExists = true) (hup : env.upOk = false) :
    callRunner st env =
      ({ st with vagrantfile := some env.vfAbs, hosts := [], sshConfigs := [] },
        .error .commandFailed) ∧
    (callRunner st env).1.hostsAccessor = .error .notInvoked ∧
    (callRunner st env).1.sshConfigsAccessor = .error .notInvoked ∧
    (∀ n, (callRunner st env).1.getHostAccessor n = .error .notInvoked) ∧
    (callRunner st env).1.hostAccessor = st.hostAccessor := by
  have h1 : callRunner st env =
      ({ st with vagrantfile := some env.vfAbs, hosts := [], sshConfigs := [] },
        .error .commandFailed) := by
    unfold callRunner
    simp [hvf, hup]
  refine ⟨h1, ?_, ?_, ?_, ?_⟩
  · rw [h1]; rfl
  · rw [h1]; rfl
  · intro n; rw [h1]; rfl
  · rw [h1]; rfl

/-- C9 witness: the amended theorem at the post-success state and a failing
provider start. -/
theorem c9_reinvocation_state_witness :
    callRunner (callRunner initRunnerState envOkA).1 envUpFail =
      ({ (callRunner initRunnerState envOkA).1 with
          vagrantfile := some "/p/Vagrantfile", hosts := [], sshConfigs := [] },
        .error .commandFailed) ∧
    (callRunner (callRunner initRunnerState envOkA).1 envUpFail).1.hostAccessor =
      ((callRunner initRunnerState envOkA).1).hostAccessor :=
  ⟨(c9_reinvocation_state (callRunner initRunnerState envOkA).1 envUpFail
      rfl rfl).1,
    (c9_reinvocation_state (callRunner initRunnerState envOkA).1 envUpFail
      rfl rfl).2.2.2.2⟩

end PAV
